import Mathlib

/-!
Verification of the call-marshaling and buffer-ownership subsystem of the
rusty-doors repository, as a shallow embedding in Lean 4.

Pointers are modelled as natural-number addresses, byte buffers as lists of
naturals, and each fallible kernel primitive (door_call, fattach, munmap,
file creation) as an explicit outcome value supplied to the embedded
function.  A Rust panic or an unreachable branch is modelled as the value
none of an Option type, so that silently defaulting and failing loudly are
distinguishable in the model.
-/

namespace RustyDoors

/-! ## Platform error codes (values of the libc crate on illumos) -/

namespace libc

def E2BIG : Int := 7
def EAGAIN : Int := 11
def EBADF : Int := 9
def EFAULT : Int := 14
def EINTR : Int := 4
def EINVAL : Int := 22
def EMFILE : Int := 24
def ENFILE : Int := 23
def ENOBUFS : Int := 132
def ENOTSUP : Int := 48
def EOVERFLOW : Int := 79
def EACCES : Int := 13
def EBUSY : Int := 16
def ELOOP : Int := 90
def ENAMETOOLONG : Int := 78
def ENOENT : Int := 2
def ENOTDIR : Int := 20
def EPERM : Int := 1

end libc

/-! ## door_h: constants and record types from src/doors/src/illumos/door_h.rs -/

namespace door_h

/-- A file descriptor is being passed (door.h attribute bit 0x10000). -/
def DOOR_DESCRIPTOR : Nat := 0x10000

/-- Passed references are also released (door.h attribute bit 0x40000). -/
def DOOR_RELEASE : Nat := 0x40000

/-- Descriptor structure for door_arg_t.  The source nests a union d_data
holding a struct d_desc with fields d_descriptor and d_id; the embedding
flattens that nesting, since the reserved alternative of the union is never
used by this crate. -/
structure door_desc_t where
  d_attributes : Nat
  d_descriptor : Int
  d_id : Nat
  deriving DecidableEq, Repr

/-- door_desc_t.new from src/src/lib.rs: build a descriptor record from a raw
file descriptor and a release flag. -/
def door_desc_t.new (raw : Int) (release : Bool) : door_desc_t :=
  { d_attributes :=
      match release with
      | false => DOOR_DESCRIPTOR
      | true => DOOR_DESCRIPTOR ||| DOOR_RELEASE
    d_descriptor := raw
    d_id := 0 }

/-- door_desc_t.will_release from src/src/lib.rs. -/
def door_desc_t.will_release (d : door_desc_t) : Bool :=
  d.d_attributes == (DOOR_DESCRIPTOR ||| DOOR_RELEASE)

/-- door_desc_t.as_raw_fd from src/src/lib.rs: read the raw descriptor back
out of the record. -/
def door_desc_t.as_raw_fd (d : door_desc_t) : Int :=
  d.d_descriptor

/-- Arguments for, and return values from, a door invocation
(src/doors/src/illumos/door_h.rs).  Pointer fields hold abstract addresses. -/
structure door_arg_t where
  data_ptr : Nat
  data_size : Nat
  desc_ptr : Nat
  desc_num : Nat
  rbuf : Nat
  rsize : Nat
  deriving DecidableEq, Repr

end door_h

/-! ## illumos module: DoorFd and DoorArg -/

namespace illumos

/-- DoorFd from src/doors/src/illumos/mod.rs: a newtype over door_desc_t. -/
structure DoorFd where
  desc : door_h.door_desc_t
  deriving DecidableEq, Repr

/-- DoorFd.new from src/doors/src/illumos/mod.rs: identical construction to
door_desc_t.new of the older snapshot. -/
def DoorFd.new (raw : Int) (release : Bool) : DoorFd :=
  { desc :=
      { d_attributes :=
          match release with
          | false => door_h.DOOR_DESCRIPTOR
          | true => door_h.DOOR_DESCRIPTOR ||| door_h.DOOR_RELEASE
        d_descriptor := raw
        d_id := 0 } }

/-- DoorFd.as_raw_fd from src/doors/src/illumos/mod.rs. -/
def DoorFd.as_raw_fd (f : DoorFd) : Int :=
  f.desc.d_descriptor

/-- DoorFd.will_release from src/doors/src/illumos/mod.rs. -/
def DoorFd.will_release (f : DoorFd) : Bool :=
  f.desc.d_attributes == (door_h.DOOR_DESCRIPTOR ||| door_h.DOOR_RELEASE)

/-- A memory region named by a base address and a length, standing for a Rust
slice reference. -/
structure Slice where
  addr : Nat
  len : Nat
  deriving DecidableEq, Repr

/-- Modelled from the spec: the type illumos.DoorArg is referenced by
src/doors/src/lib.rs but its definition is not part of the source snapshot.
Per the spec it is a safe wrapper holding a door_arg_t record; its
constructor mirrors door_arg_t.new of the older snapshot (pointers and
lengths taken from the three slices), rbuf_addr reads the inbound-buffer
address, and the rbuf region is the pair (rbuf, rsize). -/
structure DoorArg where
  raw : door_h.door_arg_t
  deriving DecidableEq, Repr

/-- Modelled from the spec: DoorArg.new builds the pre-call record from the
outbound data slice, the outbound descriptor slice and the response slice,
exactly as door_arg_t.new of src/src/lib.rs does. -/
def DoorArg.new (data descriptors response : Slice) : DoorArg :=
  { raw :=
      { data_ptr := data.addr
        data_size := data.len
        desc_ptr := descriptors.addr
        desc_num := descriptors.len
        rbuf := response.addr
        rsize := response.len } }

/-- Modelled from the spec: DoorArg.rbuf_addr returns the address of the
inbound buffer. -/
def DoorArg.rbuf_addr (a : DoorArg) : Nat :=
  a.raw.rbuf

/-- Modelled from the spec: the rbuf region of a DoorArg is the inbound
buffer named by its address and size. -/
def DoorArg.rbuf_region (a : DoorArg) : Slice :=
  { addr := a.raw.rbuf, len := a.raw.rsize }

/-- illumos error conditions (enum Error of src/doors/src/illumos/mod.rs). -/
inductive Error where
  | EACCES
  | EBADF
  | EBUSY
  | EINVAL
  | ELOOP
  | EMFILE
  | ENAMETOOLONG
  | ENOENT
  | ENOTDIR
  | EPERM
  | EFAULT
  deriving DecidableEq, Repr

/-- The errno match arms of fattach in source order.  An errno value outside
this table hits the unreachable branch, modelled as none. -/
def mapFattachErrno (e : Int) : Option Error :=
  if e = libc.EACCES then some Error.EACCES
  else if e = libc.EBADF then some Error.EBADF
  else if e = libc.EBUSY then some Error.EBUSY
  else if e = libc.EINVAL then some Error.EINVAL
  else if e = libc.ELOOP then some Error.ELOOP
  else if e = libc.ENAMETOOLONG then some Error.ENAMETOOLONG
  else if e = libc.ENOENT then some Error.ENOENT
  else if e = libc.ENOTDIR then some Error.ENOTDIR
  else if e = libc.EPERM then some Error.EPERM
  else none

/-- The errno values the fattach wrapper maps, in source order. -/
def fattachErrnos : List Int :=
  [libc.EACCES, libc.EBADF, libc.EBUSY, libc.EINVAL, libc.ELOOP,
   libc.ENAMETOOLONG, libc.ENOENT, libc.ENOTDIR, libc.EPERM]

/-- fattach from src/doors/src/illumos/mod.rs.  The native primitive returns
rc and sets errno; both are supplied as parameters.  A zero rc yields Ok,
any other rc maps errno through the match table, and an unmapped errno hits
the unreachable branch, modelled as none. -/
def fattach (rc : Int) (errno : Int) : Option (Except Error Unit) :=
  if rc = 0 then some (Except.ok ())
  else Option.map Except.error (mapFattachErrno errno)

end illumos

/-! ## Client side: src/doors/src/lib.rs -/

/-- Failure conditions for door_call (src/doors/src/lib.rs). -/
inductive DoorCallError where
  | E2BIG
  | EAGAIN
  | EBADF
  | EFAULT
  | EINTR
  | EINVAL
  | EMFILE
  | ENFILE
  | ENOBUFS
  | ENOTSUP
  | EOVERFLOW
  deriving DecidableEq, Repr

/-- The errno match arms of Client.call in source order.  An errno value
outside this table hits the unreachable branch, modelled as none. -/
def mapDoorCallErrno (e : Int) : Option DoorCallError :=
  if e = libc.E2BIG then some DoorCallError.E2BIG
  else if e = libc.EAGAIN then some DoorCallError.EAGAIN
  else if e = libc.EBADF then some DoorCallError.EBADF
  else if e = libc.EFAULT then some DoorCallError.EFAULT
  else if e = libc.EINTR then some DoorCallError.EINTR
  else if e = libc.EINVAL then some DoorCallError.EINVAL
  else if e = libc.EMFILE then some DoorCallError.EMFILE
  else if e = libc.ENFILE then some DoorCallError.ENFILE
  else if e = libc.ENOBUFS then some DoorCallError.ENOBUFS
  else if e = libc.ENOTSUP then some DoorCallError.ENOTSUP
  else if e = libc.EOVERFLOW then some DoorCallError.EOVERFLOW
  else none

/-- The errno values door_call may report, per the match in Client.call. -/
def doorCallErrnos : List Int :=
  [libc.E2BIG, libc.EAGAIN, libc.EBADF, libc.EFAULT, libc.EINTR,
   libc.EINVAL, libc.EMFILE, libc.ENFILE, libc.ENOBUFS, libc.ENOTSUP,
   libc.EOVERFLOW]

/-- DoorArgument from src/doors/src/lib.rs: tags a DoorArg with whether its
rbuf is borrowed from the caller or owned (kernel mapped, to be unmapped). -/
inductive DoorArgument where
  | BorrowedRbuf (a : illumos.DoorArg)
  | OwnedRbuf (a : illumos.DoorArg)
  deriving DecidableEq, Repr

/-- DoorArgument.new from src/doors/src/lib.rs: delegates to borrowed_rbuf. -/
def DoorArgument.new (data descriptors response : illumos.Slice) : DoorArgument :=
  DoorArgument.BorrowedRbuf (illumos.DoorArg.new data descriptors response)

/-- DoorArgument.owned_rbuf from src/doors/src/lib.rs. -/
def DoorArgument.owned_rbuf (data descriptors response : illumos.Slice) : DoorArgument :=
  DoorArgument.OwnedRbuf (illumos.DoorArg.new data descriptors response)

/-- DoorArgument.inner from src/doors/src/lib.rs. -/
def DoorArgument.inner : DoorArgument → illumos.DoorArg
  | DoorArgument.BorrowedRbuf a => a
  | DoorArgument.OwnedRbuf a => a

/-- In Client.call the kernel writes through the mutable reference obtained
from inner_mut, replacing the contained door_arg_t while leaving the variant
of the enum alone.  This helper expresses that in-place update. -/
def DoorArgument.withRaw : DoorArgument → door_h.door_arg_t → DoorArgument
  | DoorArgument.BorrowedRbuf _, post => DoorArgument.BorrowedRbuf { raw := post }
  | DoorArgument.OwnedRbuf _, post => DoorArgument.OwnedRbuf { raw := post }

/-- True exactly on the BorrowedRbuf variant. -/
def DoorArgument.isBorrowed : DoorArgument → Bool
  | DoorArgument.BorrowedRbuf _ => true
  | DoorArgument.OwnedRbuf _ => false

/-- Outcome of one invocation of the foreign function door_call: its return
code, the process-global errno after the call, and the door_arg_t record as
the kernel left it in place. -/
structure KernelOutcome where
  rc : Int
  errno : Int
  post : door_h.door_arg_t
  deriving DecidableEq, Repr

/-- Client.call from src/doors/src/lib.rs.  The pre-call rbuf address is
saved, door_call runs (outcome supplied as a parameter), and on success the
result is classified by comparing the rbuf address before and after the
call.  On the changed-address branch the source rebuilds the argument from
the kernel-reported data slice, descriptor slice and rbuf slice via
owned_rbuf; the try_into conversion of desc_num (c_uint to usize) cannot
fail.  On failure errno is mapped through the match table; the unreachable
arm is modelled as none. -/
def Client.call (arg : DoorArgument) (k : KernelOutcome) :
    Option (Except DoorCallError DoorArgument) :=
  let a := arg.inner.rbuf_addr
  if k.rc = 0 then
    if k.post.rbuf = a then
      some (Except.ok (arg.withRaw k.post))
    else
      some (Except.ok (DoorArgument.owned_rbuf
        { addr := k.post.data_ptr, len := k.post.data_size }
        { addr := k.post.desc_ptr, len := k.post.desc_num }
        { addr := k.post.rbuf, len := k.post.rsize }))
  else
    Option.map Except.error (mapDoorCallErrno k.errno)

/-- Whether a call result is a successful BorrowedRbuf classification. -/
def callResultIsBorrowedOk : Option (Except DoorCallError DoorArgument) → Bool
  | some (Except.ok (DoorArgument.BorrowedRbuf _)) => true
  | _ => false

/-- Modelled from the spec: the contract of door_call(3C) for the case in
which the reply fit in the caller-supplied inbound buffer.  When the kernel
leaves the rbuf address unchanged, the reported buffer size is the supplied
capacity and the reported response length does not exceed that capacity. -/
def KernelOutcome.fitsContract (pre : door_h.door_arg_t) (k : KernelOutcome) : Prop :=
  k.rc = 0 → k.post.rbuf = pre.rbuf →
    k.post.rsize = pre.rsize ∧ k.post.data_size ≤ pre.rsize

/-- Observable effect of tearing down one DoorArgument value. -/
inductive TeardownEffect where
  | unmapped
  | fatalError
  | noRelease
  deriving DecidableEq, Repr

/-- Number of times a teardown effect releases the response mapping. -/
def TeardownEffect.releaseCount : TeardownEffect → Nat
  | TeardownEffect.unmapped => 1
  | TeardownEffect.fatalError => 0
  | TeardownEffect.noRelease => 0

/-- Drop for DoorArgument from src/doors/src/lib.rs: an OwnedRbuf value
unmaps its rbuf once (munmap_rbuf, whose outcome is supplied as a
parameter), and a failed unmap is unwrapped into a fatal error; a
BorrowedRbuf value releases nothing.  munmap_rbuf itself lives in the
missing illumos.DoorArg code and is modelled from the spec as a fallible
release of the rbuf mapping. -/
def DoorArgument.dropEffect (a : DoorArgument) (munmapOk : Bool) : TeardownEffect :=
  match a with
  | DoorArgument.OwnedRbuf _ =>
      if munmapOk then TeardownEffect.unmapped else TeardownEffect.fatalError
  | DoorArgument.BorrowedRbuf _ => TeardownEffect.noRelease

/-! ## Server side: src/doors/src/server.rs -/

deriving instance DecidableEq for Except

namespace server

/-- Door problems (enum Error of src/doors/src/server.rs).  std::io::Error
and ffi::NulError payloads are modelled as abstract integer codes. -/
inductive Error where
  | InvalidPath (e : Int)
  | InstallJamb (e : Int)
  | AttachDoor (e : RustyDoors.illumos.Error)
  | OpenDoor (e : Int)
  | DoorCall (e : Int)
  | CreateDoor (e : RustyDoors.illumos.Error)
  deriving DecidableEq, Repr

/-- Request from src/doors/src/server.rs: the structured view of the five
raw callback parameters.  The data bytes and the descriptor entries are the
memory the raw pointers name. -/
structure Request where
  cookie : Nat
  data : List Nat
  descriptors : List door_h.door_desc_t
  deriving DecidableEq, Repr

/-- Response from src/doors/src/server.rs: optional data bytes plus a
two-slot descriptor array and its fill count. -/
structure Response where
  data : Option (List Nat)
  num_descriptors : Nat
  descriptors : List door_h.door_desc_t
  deriving DecidableEq, Repr

/-- Response.new from src/doors/src/server.rs. -/
def Response.new (data : List Nat) : Response :=
  { data := some data
    num_descriptors := 0
    descriptors := [door_h.door_desc_t.new (-1) true, door_h.door_desc_t.new (-1) true] }

/-- Response.empty from src/doors/src/server.rs. -/
def Response.empty : Response :=
  { data := none
    num_descriptors := 0
    descriptors := [door_h.door_desc_t.new (-1) true, door_h.door_desc_t.new (-1) true] }

/-- Response.add_descriptor from src/doors/src/server.rs.  A count of two
panics (none); otherwise the new record is written into the slot indexed by
the count and the count is incremented.  Writing past the end of the
two-element array would also panic in Rust (index out of bounds), hence the
second guard. -/
def Response.add_descriptor (r : Response) (fd : Int) (release : Bool) :
    Option Response :=
  if r.num_descriptors = 2 then
    none
  else if _h : r.num_descriptors < r.descriptors.length then
    some { r with
      descriptors := r.descriptors.set r.num_descriptors (door_h.door_desc_t.new fd release)
      num_descriptors := r.num_descriptors + 1 }
  else
    none

/-- The terminal door_return invocation: the four arguments handed to the
kernel, with the data bytes the data pointer names carried alongside.  A
null data pointer is recorded by the flag. -/
structure DoorReturnCall where
  data_ptr_is_null : Bool
  data : List Nat
  data_size : Nat
  desc : List door_h.door_desc_t
  num_desc : Nat
  deriving DecidableEq, Repr

/-- ServerProcedure.c_wrapper from src/doors/src/server.rs, for a user
procedure proc.  The kernel delivers the cookie, the arg_size bytes at argp
and the n_desc entries at dp; the wrapper builds the Request, runs proc, and
terminates in door_return with the data pointer and length of the Response
(null and zero when data is absent) and its descriptor array and count.
door_return never returns, so the wrapper is total into the terminal call
record.  The try_into conversion of n_desc (c_uint to usize) cannot fail. -/
def ServerProcedure.c_wrapper (proc : Request → Response) (cookie : Nat)
    (data : List Nat) (descriptors : List door_h.door_desc_t) : DoorReturnCall :=
  let payload : Request := { cookie := cookie, data := data, descriptors := descriptors }
  let response := proc payload
  match response.data with
  | some d =>
      { data_ptr_is_null := false
        data := d
        data_size := d.length
        desc := response.descriptors
        num_desc := response.num_descriptors }
  | none =>
      { data_ptr_is_null := true
        data := []
        data_size := 0
        desc := response.descriptors
        num_desc := response.num_descriptors }

/-- A Descriptor for the Door Server (struct Door of src/doors/src/server.rs). -/
structure Door where
  fd : Int
  deriving DecidableEq, Repr

/-- What Door.install does besides computing its result: whether fattach was
attempted and whether the jamb file was removed again. -/
structure InstallTrace where
  attempted_attach : Bool
  removed_jamb : Bool
  result : Except Error Unit
  deriving DecidableEq, Repr

/-- Door.install from src/doors/src/server.rs.  The outcome of creating the
jamb file and the outcome of fattach are supplied as parameters, as is the
outcome of the best-effort remove_file cleanup (whose errors the source
discards with .ok()).  A failed jamb creation returns InstallJamb without
attempting attachment; a failed attachment removes the jamb and returns
AttachDoor; otherwise the install succeeds. -/
def Door.install (_d : Door) (jamb : Except Int Unit)
    (attach : Except RustyDoors.illumos.Error Unit) (_removeOk : Bool) :
    InstallTrace :=
  match jamb with
  | Except.error e =>
      { attempted_attach := false, removed_jamb := false
        result := Except.error (Error.InstallJamb e) }
  | Except.ok _ =>
      match attach with
      | Except.error e =>
          { attempted_attach := true, removed_jamb := true
            result := Except.error (Error.AttachDoor e) }
      | Except.ok _ =>
          { attempted_attach := true, removed_jamb := false
            result := Except.ok () }

/-- The system-level actions a Door teardown can perform. -/
inductive Syscall where
  | door_revoke (fd : Int)
  deriving DecidableEq, Repr

/-- Drop for Door from src/doors/src/server.rs: the teardown body invokes
door_revoke on the owned descriptor, once. -/
def Door.dropCalls (d : Door) : List Syscall :=
  [Syscall.door_revoke d.fd]

end server

/-! ## Concrete inputs used by counterexamples and witnesses -/

/-- An argument supplied to Client.call whose rbuf is already kernel owned. -/
def c1_arg : DoorArgument :=
  DoorArgument.OwnedRbuf { raw :=
    { data_ptr := 0, data_size := 0, desc_ptr := 0, desc_num := 0,
      rbuf := 100, rsize := 8 } }

/-- A successful door_call outcome that leaves the rbuf address of c1_arg
unchanged. -/
def c1_outcome : KernelOutcome :=
  { rc := 0, errno := 0, post :=
    { data_ptr := 100, data_size := 4, desc_ptr := 0, desc_num := 0,
      rbuf := 100, rsize := 8 } }

/-- A borrowed-rbuf argument with inbound buffer at address 200, capacity 16. -/
def c1w_arg : DoorArgument :=
  DoorArgument.new { addr := 10, len := 3 } { addr := 0, len := 0 }
    { addr := 200, len := 16 }

/-- A successful outcome leaving the rbuf address of c1w_arg unchanged. -/
def c1w_outcome : KernelOutcome :=
  { rc := 0, errno := 0, post :=
    { data_ptr := 200, data_size := 5, desc_ptr := 0, desc_num := 0,
      rbuf := 200, rsize := 16 } }

/-- A DoorArg with inbound buffer at address 300, capacity 32. -/
def c2w_arg : illumos.DoorArg :=
  illumos.DoorArg.new { addr := 10, len := 3 } { addr := 0, len := 0 }
    { addr := 300, len := 32 }

/-- A successful outcome leaving the rbuf address of c2w_arg unchanged and
reporting a 7 byte reply. -/
def c2w_outcome : KernelOutcome :=
  { rc := 0, errno := 0, post :=
    { data_ptr := 300, data_size := 7, desc_ptr := 0, desc_num := 0,
      rbuf := 300, rsize := 32 } }

/-- An arbitrary argument for exercising the failure path of Client.call. -/
def c3w_arg : DoorArgument :=
  DoorArgument.new { addr := 0, len := 0 } { addr := 0, len := 0 }
    { addr := 0, len := 0 }

/-- A failed door_call outcome with errno EBADF. -/
def c3w_outcome : KernelOutcome :=
  { rc := -1, errno := libc.EBADF, post :=
    { data_ptr := 0, data_size := 0, desc_ptr := 0, desc_num := 0,
      rbuf := 0, rsize := 0 } }

/-! ## Theorems -/

/-- C10: a descriptor record built by new(fd, release) round-trips its
inputs: as_raw_fd returns fd and will_release returns release, and the
attribute word is DOOR_DESCRIPTOR alone when release is false and
DOOR_DESCRIPTOR bitwise-or DOOR_RELEASE when release is true.  This holds
both for illumos.DoorFd of the doors crate and for the identical
door_desc_t constructor of the older snapshot. -/
theorem door_fd_new_round_trip (fd : Int) (rel : Bool) :
    (illumos.DoorFd.new fd rel).as_raw_fd = fd
    ∧ (illumos.DoorFd.new fd rel).will_release = rel
    ∧ (illumos.DoorFd.new fd rel).desc.d_attributes
        = (if rel then door_h.DOOR_DESCRIPTOR ||| door_h.DOOR_RELEASE
           else door_h.DOOR_DESCRIPTOR)
    ∧ (door_h.door_desc_t.new fd rel).as_raw_fd = fd
    ∧ (door_h.door_desc_t.new fd rel).will_release = rel := by
  cases rel <;> exact ⟨rfl, rfl, rfl, rfl, rfl⟩

/-- C9: the teardown of a Door handle invokes door_revoke on the owned door
descriptor exactly once, and performs no other system-level action. -/
theorem door_drop_revokes_once (d : server.Door) :
    server.Door.dropCalls d = [server.Syscall.door_revoke d.fd]
    ∧ (server.Door.dropCalls d).count (server.Syscall.door_revoke d.fd) = 1 := by
  refine ⟨rfl, ?_⟩
  simp [server.Door.dropCalls]

/-- C4: dropping an OwnedRbuf value releases its response mapping exactly
once, unmapping it when munmap succeeds and failing fatally otherwise,
while dropping a BorrowedRbuf value performs no release at all. -/
theorem door_argument_drop_release_exactness (a : illumos.DoorArg) (ok : Bool) :
    (DoorArgument.OwnedRbuf a).dropEffect ok
        = (if ok then TeardownEffect.unmapped else TeardownEffect.fatalError)
    ∧ TeardownEffect.releaseCount ((DoorArgument.OwnedRbuf a).dropEffect true) = 1
    ∧ (DoorArgument.OwnedRbuf a).dropEffect false = TeardownEffect.fatalError
    ∧ (DoorArgument.BorrowedRbuf a).dropEffect ok = TeardownEffect.noRelease
    ∧ TeardownEffect.releaseCount ((DoorArgument.BorrowedRbuf a).dropEffect ok) = 0 := by
  cases ok <;> exact ⟨rfl, rfl, rfl, rfl, rfl⟩

/-- C5: for every kernel callback invocation the server wrapper builds the
Request from the delivered cookie, the arg_size bytes at argp and the
n_desc entries at dp, invokes the user procedure on it, and terminates in a
door_return carrying the Response data pointer and length (null and zero
when the data is absent) and its descriptor array and count; the wrapper is
total into the terminal call and never returns normally. -/
theorem server_c_wrapper_request_and_terminal (proc : server.Request → server.Response)
    (cookie : Nat) (data : List Nat) (descriptors : List door_h.door_desc_t) :
    (server.ServerProcedure.c_wrapper proc cookie data descriptors).desc
        = (proc { cookie := cookie, data := data, descriptors := descriptors }).descriptors
    ∧ (server.ServerProcedure.c_wrapper proc cookie data descriptors).num_desc
        = (proc { cookie := cookie, data := data, descriptors := descriptors }).num_descriptors
    ∧ (server.ServerProcedure.c_wrapper proc cookie data descriptors).data_ptr_is_null
        = (proc { cookie := cookie, data := data, descriptors := descriptors }).data.isNone
    ∧ (server.ServerProcedure.c_wrapper proc cookie data descriptors).data
        = ((proc { cookie := cookie, data := data, descriptors := descriptors }).data.getD [])
    ∧ (server.ServerProcedure.c_wrapper proc cookie data descriptors).data_size
        = ((proc { cookie := cookie, data := data, descriptors := descriptors }).data.getD []).length := by
  cases h : (proc { cookie := cookie, data := data, descriptors := descriptors }).data <;>
    simp [server.ServerProcedure.c_wrapper, h]

/-- C6: Response.add_descriptor on a Response holding fewer than 2
descriptors writes the new record into the next free slot and increments
the count by one, leaving the data field unchanged; with the count already
at 2 it panics (modelled as none) instead of returning a recoverable
error. -/
theorem response_add_descriptor_spec (r : server.Response) (fd : Int) (rel : Bool)
    (hlen : r.descriptors.length = 2) :
    (r.num_descriptors < 2 →
      r.add_descriptor fd rel = some { r with
        num_descriptors := r.num_descriptors + 1
        descriptors := r.descriptors.set r.num_descriptors
          (door_h.door_desc_t.new fd rel) })
    ∧ (∀ s, r.add_descriptor fd rel = some s → s.data = r.data)
    ∧ (r.num_descriptors = 2 → r.add_descriptor fd rel = none) := by
  refine ⟨?_, ?_, ?_⟩
  · intro hlt
    have hne : r.num_descriptors ≠ 2 := Nat.ne_of_lt hlt
    rw [server.Response.add_descriptor, if_neg hne, dif_pos (hlen ▸ hlt)]
  · intro s hs
    rw [server.Response.add_descriptor] at hs
    by_cases h2 : r.num_descriptors = 2
    · rw [if_pos h2] at hs
      exact absurd hs (by simp)
    · rw [if_neg h2] at hs
      by_cases h3 : r.num_descriptors < r.descriptors.length
      · rw [dif_pos h3] at hs
        cases hs
        rfl
      · rw [dif_neg h3] at hs
        exact absurd hs (by simp)
  · intro h2
    rw [server.Response.add_descriptor, if_pos h2]

/-- Witness for C6: adding a descriptor to the empty Response (count 0)
stores it in slot 0 and bumps the count to 1 while keeping data absent. -/
theorem response_add_descriptor_spec_witness :
    server.Response.empty.descriptors.length = 2
    ∧ server.Response.empty.num_descriptors < 2
    ∧ server.Response.empty.add_descriptor 5 true
        = some { data := none, num_descriptors := 1,
                 descriptors := [door_h.door_desc_t.new 5 true,
                                 door_h.door_desc_t.new (-1) true] } := by
  refine ⟨by decide, by decide, ?_⟩
  have h := (response_add_descriptor_spec server.Response.empty 5 true (by decide)).1 (by decide)
  exact h.trans (by decide)

/-- C1 (corrected): for every successful Client.call the result is
classified by comparing the rbuf address before and after the kernel call.
If the address is unchanged the call returns the original argument with its
original variant, so in particular as BorrowedRbuf whenever the argument
was supplied with a borrowed rbuf; if the address changed the call returns
an OwnedRbuf wrapping the kernel-reported data, descriptors, and new rbuf
address and size. -/
theorem client_call_classification (arg : DoorArgument) (k : KernelOutcome)
    (h : k.rc = 0) :
    (k.post.rbuf = arg.inner.rbuf_addr →
      Client.call arg k = some (Except.ok (arg.withRaw k.post))
      ∧ (arg.isBorrowed = true →
          callResultIsBorrowedOk (Client.call arg k) = true))
    ∧ (k.post.rbuf ≠ arg.inner.rbuf_addr →
      Client.call arg k
        = some (Except.ok (DoorArgument.OwnedRbuf { raw := k.post }))) := by
  constructor
  · intro heq
    have hcall : Client.call arg k = some (Except.ok (arg.withRaw k.post)) := by
      simp [Client.call, h, heq]
    refine ⟨hcall, ?_⟩
    intro hb
    cases arg with
    | BorrowedRbuf a => rw [hcall]; rfl
    | OwnedRbuf a => simp [DoorArgument.isBorrowed] at hb
  · intro hne
    simp [Client.call, h, hne, DoorArgument.owned_rbuf, illumos.DoorArg.new]

/-- Counterexample for C1 as stated: an argument supplied with an owned
rbuf, after a successful call that leaves the rbuf address unchanged, is
returned as OwnedRbuf and not as BorrowedRbuf. -/
theorem client_call_classification_counterexample :
    c1_outcome.rc = 0
    ∧ c1_outcome.post.rbuf = c1_arg.inner.rbuf_addr
    ∧ callResultIsBorrowedOk (Client.call c1_arg c1_outcome) = false := by
  decide

/-- Witness for C1: a borrowed-rbuf argument whose address the kernel left
unchanged comes back classified BorrowedRbuf. -/
theorem client_call_classification_witness :
    c1w_outcome.rc = 0
    ∧ callResultIsBorrowedOk (Client.call c1w_arg c1w_outcome) = true := by
  refine ⟨by decide, ?_⟩
  exact ((client_call_classification c1w_arg c1w_outcome (by decide)).1
    (by decide)).2 (by decide)

/-- C2: on a successful Client.call in which the kernel left the rbuf
address unchanged, a borrowed-rbuf argument is returned as a BorrowedRbuf
whose rbuf region covers the original buffer (same address and capacity),
and under the door_call contract for the fitting case the kernel-reported
response length never exceeds the supplied capacity. -/
theorem client_call_borrowed_covers_original (a : illumos.DoorArg)
    (k : KernelOutcome) (hwf : KernelOutcome.fitsContract a.raw k)
    (h0 : k.rc = 0) (heq : k.post.rbuf = a.raw.rbuf) :
    Client.call (DoorArgument.BorrowedRbuf a) k
      = some (Except.ok (DoorArgument.BorrowedRbuf { raw := k.post }))
    ∧ illumos.DoorArg.rbuf_region { raw := k.post } = illumos.DoorArg.rbuf_region a
    ∧ k.post.data_size ≤ a.raw.rsize := by
  obtain ⟨hsize, hlen⟩ := hwf h0 heq
  refine ⟨?_, ?_, hlen⟩
  · simp [Client.call, h0, DoorArgument.inner, illumos.DoorArg.rbuf_addr, heq,
      DoorArgument.withRaw]
  · rw [illumos.DoorArg.rbuf_region, illumos.DoorArg.rbuf_region, heq, hsize]

/-- Witness for C2: a concrete borrowed argument of capacity 32 whose
kernel outcome reports a 7 byte reply in place. -/
theorem client_call_borrowed_covers_original_witness :
    KernelOutcome.fitsContract c2w_arg.raw c2w_outcome
    ∧ c2w_outcome.rc = 0
    ∧ c2w_outcome.post.rbuf = c2w_arg.raw.rbuf
    ∧ Client.call (DoorArgument.BorrowedRbuf c2w_arg) c2w_outcome
        = some (Except.ok (DoorArgument.BorrowedRbuf { raw := c2w_outcome.post }))
    ∧ c2w_outcome.post.data_size ≤ c2w_arg.raw.rsize := by
  refine ⟨fun _ _ => by decide, by decide, by decide, ?_, ?_⟩
  · exact (client_call_borrowed_covers_original c2w_arg c2w_outcome
      (fun _ _ => by decide) (by decide) (by decide)).1
  · exact (client_call_borrowed_covers_original c2w_arg c2w_outcome
      (fun _ _ => by decide) (by decide) (by decide)).2.2

/-- An errno value outside the door_call table is not mapped. -/
theorem mapDoorCallErrno_eq_none (e : Int) (h : e ∉ doorCallErrnos) :
    mapDoorCallErrno e = none := by
  simp only [doorCallErrnos, List.mem_cons, List.not_mem_nil, or_false, not_or] at h
  obtain ⟨h1, h2, h3, h4, h5, h6, h7, h8, h9, h10, h11⟩ := h
  simp [mapDoorCallErrno, h1, h2, h3, h4, h5, h6, h7, h8, h9, h10, h11]

/-- An errno value outside the fattach table is not mapped. -/
theorem mapFattachErrno_eq_none (e : Int) (h : e ∉ illumos.fattachErrnos) :
    illumos.mapFattachErrno e = none := by
  simp only [illumos.fattachErrnos, List.mem_cons, List.not_mem_nil, or_false,
    not_or] at h
  obtain ⟨h1, h2, h3, h4, h5, h6, h7, h8, h9⟩ := h
  simp [illumos.mapFattachErrno, h1, h2, h3, h4, h5, h6, h7, h8, h9]

/-- C3: when door_call reports failure, Client.call returns an error and no
result view; the error is exactly the DoorCallError variant obtained from
errno through a mapping that is defined and injective on E2BIG, EAGAIN,
EBADF, EFAULT, EINTR, EINVAL, EMFILE, ENFILE, ENOBUFS, ENOTSUP and
EOVERFLOW, and any other errno value hits the unreachable branch (none)
rather than any silent default. -/
theorem client_call_error_mapping (arg : DoorArgument) (k : KernelOutcome)
    (h : k.rc ≠ 0) :
    Client.call arg k = Option.map Except.error (mapDoorCallErrno k.errno)
    ∧ (∀ r, Client.call arg k ≠ some (Except.ok r))
    ∧ (k.errno ∉ doorCallErrnos → Client.call arg k = none)
    ∧ (doorCallErrnos.map mapDoorCallErrno).Nodup
    ∧ mapDoorCallErrno libc.E2BIG = some DoorCallError.E2BIG
    ∧ mapDoorCallErrno libc.EAGAIN = some DoorCallError.EAGAIN
    ∧ mapDoorCallErrno libc.EBADF = some DoorCallError.EBADF
    ∧ mapDoorCallErrno libc.EFAULT = some DoorCallError.EFAULT
    ∧ mapDoorCallErrno libc.EINTR = some DoorCallError.EINTR
    ∧ mapDoorCallErrno libc.EINVAL = some DoorCallError.EINVAL
    ∧ mapDoorCallErrno libc.EMFILE = some DoorCallError.EMFILE
    ∧ mapDoorCallErrno libc.ENFILE = some DoorCallError.ENFILE
    ∧ mapDoorCallErrno libc.ENOBUFS = some DoorCallError.ENOBUFS
    ∧ mapDoorCallErrno libc.ENOTSUP = some DoorCallError.ENOTSUP
    ∧ mapDoorCallErrno libc.EOVERFLOW = some DoorCallError.EOVERFLOW := by
  have hmain : Client.call arg k
      = Option.map Except.error (mapDoorCallErrno k.errno) := by
    simp [Client.call, h]
  refine ⟨hmain, ?_, ?_, by decide, by decide, by decide, by decide, by decide,
    by decide, by decide, by decide, by decide, by decide, by decide, by decide⟩
  · intro r hr
    rw [hmain] at hr
    cases hmap : mapDoorCallErrno k.errno with
    | none => simp [hmap] at hr
    | some e => simp [hmap] at hr
  · intro hnm
    rw [hmain, mapDoorCallErrno_eq_none k.errno hnm]
    rfl

/-- Witness for C3: a failed door_call with errno EBADF yields exactly the
EBADF error and no result view. -/
theorem client_call_error_mapping_witness :
    c3w_outcome.rc ≠ 0
    ∧ Client.call c3w_arg c3w_outcome = some (Except.error DoorCallError.EBADF) := by
  refine ⟨by decide, ?_⟩
  have h := (client_call_error_mapping c3w_arg c3w_outcome (by decide)).1
  exact h.trans (by decide)

/-- C7: fattach returns Ok exactly when the native primitive succeeds;
otherwise it returns the typed Error variant matching errno, with distinct
variants for EACCES, EBADF, EBUSY, EINVAL, ELOOP, ENAMETOOLONG, ENOENT,
ENOTDIR and EPERM, and any other errno value hits the unreachable branch
(none). -/
theorem fattach_error_mapping (rc errno : Int) :
    (rc = 0 → illumos.fattach rc errno = some (Except.ok ()))
    ∧ (illumos.fattach rc errno = some (Except.ok ()) → rc = 0)
    ∧ (rc ≠ 0 →
        illumos.fattach rc errno
          = Option.map Except.error (illumos.mapFattachErrno errno))
    ∧ (rc ≠ 0 → errno ∉ illumos.fattachErrnos → illumos.fattach rc errno = none)
    ∧ (illumos.fattachErrnos.map illumos.mapFattachErrno).Nodup
    ∧ illumos.mapFattachErrno libc.EACCES = some illumos.Error.EACCES
    ∧ illumos.mapFattachErrno libc.EBADF = some illumos.Error.EBADF
    ∧ illumos.mapFattachErrno libc.EBUSY = some illumos.Error.EBUSY
    ∧ illumos.mapFattachErrno libc.EINVAL = some illumos.Error.EINVAL
    ∧ illumos.mapFattachErrno libc.ELOOP = some illumos.Error.ELOOP
    ∧ illumos.mapFattachErrno libc.ENAMETOOLONG = some illumos.Error.ENAMETOOLONG
    ∧ illumos.mapFattachErrno libc.ENOENT = some illumos.Error.ENOENT
    ∧ illumos.mapFattachErrno libc.ENOTDIR = some illumos.Error.ENOTDIR
    ∧ illumos.mapFattachErrno libc.EPERM = some illumos.Error.EPERM := by
  refine ⟨?_, ?_, ?_, ?_, by decide, by decide, by decide, by decide, by decide,
    by decide, by decide, by decide, by decide, by decide⟩
  · intro h
    simp [illumos.fattach, h]
  · intro h
    by_cases h0 : rc = 0
    · exact h0
    · exfalso
      rw [illumos.fattach, if_neg h0] at h
      cases hm : illumos.mapFattachErrno errno with
      | none => simp [hm] at h
      | some e => simp [hm] at h
  · intro h
    simp [illumos.fattach, h]
  · intro h hnm
    rw [illumos.fattach, if_neg h, mapFattachErrno_eq_none errno hnm]
    rfl

/-- Witness for C7: success yields Ok, errno EBUSY yields the EBUSY variant,
and an unmapped errno value is unreachable rather than defaulted. -/
theorem fattach_error_mapping_witness :
    illumos.fattach 0 17 = some (Except.ok ())
    ∧ illumos.fattach (-1) libc.EBUSY = some (Except.error illumos.Error.EBUSY)
    ∧ illumos.fattach (-1) 12345 = none := by
  refine ⟨(fattach_error_mapping 0 17).1 rfl, ?_, ?_⟩
  · have h := (fattach_error_mapping (-1) libc.EBUSY).2.2.1 (by decide)
    exact h.trans (by decide)
  · exact (fattach_error_mapping (-1) 12345).2.2.2.1 (by decide) (by decide)

/-- C8: Door.install returns a typed error on every failure and swallows
none: a failed jamb creation yields InstallJamb without attempting the
attachment, a failed attachment removes the created jamb (best effort, the
removal outcome being ignored) and yields AttachDoor, and the result is Ok
exactly when both steps succeed. -/
theorem door_install_spec (d : server.Door) (jamb : Except Int Unit)
    (attach : Except illumos.Error Unit) (rm rm2 : Bool) :
    (∀ e, jamb = Except.error e →
      d.install jamb attach rm
        = { attempted_attach := false, removed_jamb := false
            result := Except.error (server.Error.InstallJamb e) })
    ∧ (∀ e, jamb = Except.ok () → attach = Except.error e →
      d.install jamb attach rm
        = { attempted_attach := true, removed_jamb := true
            result := Except.error (server.Error.AttachDoor e) })
    ∧ (jamb = Except.ok () → attach = Except.ok () →
      d.install jamb attach rm
        = { attempted_attach := true, removed_jamb := false
            result := Except.ok () })
    ∧ d.install jamb attach rm = d.install jamb attach rm2
    ∧ ((d.install jamb attach rm).result = Except.ok ()
        ↔ (jamb = Except.ok () ∧ attach = Except.ok ())) := by
  cases jamb with
  | error e => cases attach <;> simp [server.Door.install]
  | ok u =>
    cases u
    cases attach with
    | error e2 => simp [server.Door.install]
    | ok u2 =>
      cases u2
      simp [server.Door.install]

/-- Witness for C8: with the jamb created and the attachment failing with
EBUSY, install removes the jamb and reports AttachDoor EBUSY. -/
theorem door_install_spec_witness :
    server.Door.install { fd := 3 } (Except.ok ())
        (Except.error illumos.Error.EBUSY) true
      = { attempted_attach := true, removed_jamb := true
          result := Except.error (server.Error.AttachDoor illumos.Error.EBUSY) } :=
  (door_install_spec { fd := 3 } (Except.ok ())
    (Except.error illumos.Error.EBUSY) true true).2.1 illumos.Error.EBUSY rfl rfl

end RustyDoors
